import Mathlib

/-!
Verification development for the visibility and pass-prediction engine of the
`satellite_security` repository.

The development shallowly embeds the two analysis scripts:

* `analysis/scripts/satellite_pass_predictor.py` — the LEO pass event loop of
  `predict_leo_passes` (the fold over skyfield `find_events` output) and the
  inline GEO visibility computation `calculate_geo_visibility`;
* `analysis/scripts/geo_arc_survey.py` — the closed-form GEO geometry
  (`calculate_geo_angles`, `calculate_slant_range`) and the priority scoring
  of `survey_geo_arc`.

Machine floats are embedded as real numbers; times and elevations fed to the
event loop are embedded as rationals so that the loop is executable.
-/

namespace SatelliteSecurity

open Real

/-! ### LEO pass aggregation

Embedding of the event loop of `predict_leo_passes`
(`satellite_pass_predictor.py`, lines 212–248).  The skyfield events are
`(ti, event)` pairs with `event ∈ {0 = rise, 1 = culmination, 2 = set}`; at a
culmination the script looks up the elevation `(sat - station).at(ti).altaz()`.
That external ephemeris lookup is abstracted by carrying the sampled elevation
in the event itself (field `el`, only consulted on culminations).  Times are
the Julian-day values `ti.tt`.

The loop state is exactly the script's loop variables `rise_time` (`None` or a
time), `max_el` (a number, initially 0), `max_time` (`None` or a time, never
reset inside the loop) and the accumulator `all_passes`.  The script surfaces
no warning of any kind to its caller — it returns only `all_passes` — so the
warning channel demanded by the specification is embedded as an explicit list
that the translated code never appends to.
-/

inductive EventKind
  | rise
  | culmination
  | set
deriving DecidableEq

/-- One raw event from the propagation service: instant `t` (Julian days),
kind, and the elevation sample `el` the `altaz()` call returns at `t`. -/
structure VisEvent where
  t : ℚ
  kind : EventKind
  el : ℚ
deriving DecidableEq

/-- One record appended to `all_passes`: `max_elevation`, the culmination
instant stored as `time_utc`, and `duration_min`. -/
structure PassRec where
  maxEl : ℚ
  culmTime : ℚ
  duration : ℚ
deriving DecidableEq

/-- Warning conditions named by the specification (§7).  The script never
raises either of them. -/
inductive Warning
  | orphanedEvent
  | degeneratePass
deriving DecidableEq

/-- Loop state of `predict_leo_passes`: `rise_time`, `max_el`, `max_time`,
`all_passes`, plus the (never written) warning channel. -/
structure PredState where
  riseTime : Option ℚ
  maxEl : ℚ
  maxTime : Option ℚ
  passes : List PassRec
  warnings : List Warning
deriving DecidableEq

/-- State before the loop: `rise_time = None`, `max_el = 0`,
`max_time = None`, no passes, no warnings. -/
def initState : PredState := ⟨none, 0, none, [], []⟩

/-- One iteration of the `for ti, event in zip(t0, events)` loop.

* `event == 0` (rise): `rise_time = ti; max_el = 0`.
* `event == 1` (culmination): `max_el = alt.degrees; max_time = ti`.
* `event == 2` (set): if `rise_time and max_time` (both non-`None`), append a
  record with `duration = (ti.tt - rise_time.tt) * 24 * 60`; in every case
  then `rise_time = None; max_el = 0`.  `max_time` is never cleared. -/
def processEvent (st : PredState) (e : VisEvent) : PredState :=
  match e.kind with
  | .rise => { st with riseTime := some e.t, maxEl := 0 }
  | .culmination => { st with maxEl := e.el, maxTime := some e.t }
  | .set =>
    match st.riseTime, st.maxTime with
    | some tr, some tm =>
      { st with riseTime := none, maxEl := 0,
                passes := st.passes ++ [⟨st.maxEl, tm, (e.t - tr) * 24 * 60⟩] }
    | some _, none => { st with riseTime := none, maxEl := 0 }
    | none, _ => { st with riseTime := none, maxEl := 0 }

/-- The whole loop, folded over the chronological event list. -/
def runPredict (evs : List VisEvent) : PredState :=
  evs.foldl processEvent initState

/-- The list `all_passes` the function returns. -/
def predict_leo_passes (evs : List VisEvent) : List PassRec :=
  (runPredict evs).passes

/-- The warnings surfaced to the caller (the script surfaces none). -/
def predictWarnings (evs : List VisEvent) : List Warning :=
  (runPredict evs).warnings

/-! Basic facts about the loop, shared by several claims below. -/

/-- Rise and culmination events never change the accumulated pass list. -/
theorem passes_foldl_no_set (tl : List VisEvent) :
    ∀ st : PredState, (∀ e ∈ tl, e.kind ≠ EventKind.set) →
      (tl.foldl processEvent st).passes = st.passes := by
  induction tl with
  | nil => intro st _; rfl
  | cons e rest ih =>
    intro st h
    have he : e.kind ≠ EventKind.set := h e (List.mem_cons_self e rest)
    have hrest : ∀ e' ∈ rest, e'.kind ≠ EventKind.set :=
      fun e' he' => h e' (List.mem_cons_of_mem e he')
    rw [List.foldl_cons, ih _ hrest]
    cases hk : e.kind with
    | rise => simp [processEvent, hk]
    | culmination => simp [processEvent, hk]
    | set => exact absurd hk he

/-- Folding a nonempty block of culmination events overwrites `max_el` and
`max_time` with the data of the **last** culmination and changes nothing
else. -/
theorem foldl_culminations (l : List (ℚ × ℚ)) :
    ∀ (st : PredState) (h : l ≠ []),
      (l.foldl (fun s p => processEvent s ⟨p.1, EventKind.culmination, p.2⟩) st)
        = { st with maxEl := (l.getLast h).2, maxTime := some (l.getLast h).1 } := by
  induction l with
  | nil => intro _ h; exact absurd rfl h
  | cons p rest ih =>
    intro st h
    cases rest with
    | nil => simp [processEvent, List.getLast]
    | cons q rest' =>
      have hne : q :: rest' ≠ [] := by simp
      rw [List.foldl_cons, ih _ hne]
      simp [processEvent, List.getLast_cons]

/-- The warning channel stays empty through the whole loop. -/
theorem warnings_foldl (tl : List VisEvent) :
    ∀ st : PredState, (tl.foldl processEvent st).warnings = st.warnings := by
  induction tl with
  | nil => intro _; rfl
  | cons e rest ih =>
    intro st
    rw [List.foldl_cons, ih]
    cases hk : e.kind with
    | rise => simp [processEvent, hk]
    | culmination => simp [processEvent, hk]
    | set =>
      cases hr : st.riseTime <;> cases hm : st.maxTime <;>
        simp [processEvent, hk, hr, hm]

/-! ### Claims C2, C3, C5, C6, C8 — the pass aggregation loop -/

/-- C2 counterexample: a complete Rise→Set pair with no Culmination between
them (and none before) produces **zero** records, because `max_time` is still
`None` when the Set arrives, so the claimed "one record per complete triple"
fails on the very first pass of a run. -/
theorem c2_counterexample :
    predict_leo_passes [(⟨0, EventKind.rise, 0⟩ : VisEvent), ⟨1, EventKind.set, 0⟩] = [] := by
  decide

/-- C2 (amended): each processed event appends exactly one `PassRecord` iff it
is a Set event arriving while `rise_time` is set **and** some culmination has
ever been recorded (`max_time` non-`None`, possibly left over from an earlier
pass); every other event appends nothing. -/
theorem c2_emission_count (st : PredState) (e : VisEvent) :
    (processEvent st e).passes.length =
      st.passes.length +
        (if e.kind = EventKind.set ∧ st.riseTime ≠ none ∧ st.maxTime ≠ none
          then 1 else 0) := by
  cases hk : e.kind <;> cases hr : st.riseTime <;> cases hm : st.maxTime <;>
    simp [processEvent, hk, hr, hm]

/-- C3 counterexample: with two culminations (elevations 50 then 10) between a
Rise and its Set, the emitted record keeps elevation 10 — the **last**
culmination, not the greatest one. -/
theorem c3_counterexample :
    predict_leo_passes
        [(⟨0, EventKind.rise, 0⟩ : VisEvent), ⟨1, EventKind.culmination, 50⟩,
         ⟨2, EventKind.culmination, 10⟩, ⟨3, EventKind.set, 0⟩]
      = [⟨10, 2, 4320⟩] := by
  norm_num [predict_leo_passes, runPredict, processEvent, initState]

/-- C3 (amended): when several Culmination events arrive between a Rise and
its Set, the emitted record's max elevation (and stored culmination time) is
that of the **last** culmination in arrival order, each culmination
overwriting `max_el`/`max_time` unconditionally. -/
theorem c3_last_culmination (t0 t3 : ℚ) (culms : List (ℚ × ℚ)) (h : culms ≠ []) :
    predict_leo_passes
        (⟨t0, EventKind.rise, 0⟩ ::
          (culms.map (fun p => (⟨p.1, EventKind.culmination, p.2⟩ : VisEvent)) ++
            [⟨t3, EventKind.set, 0⟩]))
      = [⟨(culms.getLast h).2, (culms.getLast h).1, (t3 - t0) * 24 * 60⟩] := by
  unfold predict_leo_passes runPredict
  rw [List.foldl_cons, List.foldl_append, List.foldl_map]
  have h1 : processEvent initState ⟨t0, EventKind.rise, 0⟩
      = ⟨some t0, 0, none, [], []⟩ := rfl
  rw [h1, foldl_culminations culms _ h]
  simp [processEvent]

/-- C3 witness: instantiating the amended statement on the culmination block
`[(1, 30), (2, 20)]` keeps the last culmination (elevation 20 at `t = 2`). -/
theorem c3_witness :
    predict_leo_passes
        [(⟨0, EventKind.rise, 0⟩ : VisEvent), ⟨1, EventKind.culmination, 30⟩,
         ⟨2, EventKind.culmination, 20⟩, ⟨4, EventKind.set, 0⟩]
      = [⟨20, 2, 5760⟩] :=
  (c3_last_culmination 0 4 [(1, 30), (2, 20)] (by simp)).trans
    (by norm_num [List.getLast])

/-- C5 counterexample: a Set arriving at the same instant as its Rise yields
duration 0, yet the record is still emitted and no `DegeneratePass` warning
is produced — the claimed strict-positivity check does not exist. -/
theorem c5_counterexample :
    predict_leo_passes
        [(⟨1, EventKind.rise, 0⟩ : VisEvent), ⟨1, EventKind.culmination, 20⟩,
         ⟨1, EventKind.set, 0⟩]
      = [⟨20, 1, 0⟩] ∧
    predictWarnings
        [(⟨1, EventKind.rise, 0⟩ : VisEvent), ⟨1, EventKind.culmination, 20⟩,
         ⟨1, EventKind.set, 0⟩]
      = [] := by
  constructor <;>
    norm_num [predict_leo_passes, predictWarnings, runPredict, processEvent, initState]

/-- C5 (amended): when a Set event closes a pass, the emitted record's
duration is `(t_set - t_rise) * 24 * 60` minutes — with no sign check, no
dropping of non-positive durations, and no `DegeneratePass` signal (the
warning channel is untouched). -/
theorem c5_duration_formula (st : PredState) (t el tr tm : ℚ)
    (hr : st.riseTime = some tr) (hm : st.maxTime = some tm) :
    processEvent st ⟨t, EventKind.set, el⟩ =
      { st with riseTime := none, maxEl := 0,
                passes := st.passes ++ [⟨st.maxEl, tm, (t - tr) * 24 * 60⟩] } := by
  simp [processEvent, hr, hm]

/-- C5 witness: the amended statement at a concrete closing state: the Set at
`t = 1` with `rise_time = 1` emits the record with duration `0`. -/
theorem c5_witness :
    processEvent ⟨some 1, 20, some 1, [], []⟩ ⟨1, EventKind.set, 0⟩ =
      ⟨none, 0, some 1, [⟨20, 1, 0⟩], []⟩ :=
  (c5_duration_formula ⟨some 1, 20, some 1, [], []⟩ 1 0 1 1 rfl rfl).trans (by norm_num)

/-- C6 counterexample: a Set with no preceding Rise produces zero records
(consistent with the claim) but **zero** warnings, not the claimed single
`OrphanedEvent` warning — the event is silently discarded. -/
theorem c6_counterexample :
    ¬ (predict_leo_passes [(⟨0, EventKind.set, 5⟩ : VisEvent)] = [] ∧
        (predictWarnings [(⟨0, EventKind.set, 5⟩ : VisEvent)]).length = 1) := by
  decide

/-- C6 (amended): a Set event arriving while `rise_time = None` appends no
record, and the warning channel of a whole run is always empty — the orphaned
Set is dropped silently rather than signalled. -/
theorem c6_orphan_silent (st : PredState) (t el : ℚ) (evs : List VisEvent)
    (h : st.riseTime = none) :
    (processEvent st ⟨t, EventKind.set, el⟩).passes = st.passes ∧
      predictWarnings evs = [] := by
  refine ⟨?_, ?_⟩
  · cases hm : st.maxTime <;> simp [processEvent, h, hm]
  · unfold predictWarnings runPredict
    rw [warnings_foldl]
    rfl

/-- C6 witness: the amended statement at a concrete orphaned Set and a
concrete run. -/
theorem c6_witness :
    (processEvent ⟨none, 7, some 2, [], []⟩ ⟨3, EventKind.set, 1⟩).passes = [] ∧
      predictWarnings [(⟨0, EventKind.rise, 0⟩ : VisEvent), ⟨1, EventKind.set, 0⟩] = [] :=
  c6_orphan_silent ⟨none, 7, some 2, [], []⟩ 3 1 _ rfl

/-- C8: appending any tail of events containing no Set (an orphaned Rise
and/or culminations at window end) leaves the emitted pass list unchanged:
records are only ever appended when a Set event arrives, so an in-progress
pass at window end is never reported.  With `evs = []` this also shows a
Set-free sequence yields no records at all. -/
theorem c8_no_record_without_set (evs tl : List VisEvent)
    (h : ∀ e ∈ tl, e.kind ≠ EventKind.set) :
    predict_leo_passes (evs ++ tl) = predict_leo_passes evs := by
  unfold predict_leo_passes runPredict
  rw [List.foldl_append]
  exact passes_foldl_no_set tl _ h

/-- C8 witness: a complete pass followed by an orphaned Rise and culmination
reports only the completed pass. -/
theorem c8_witness :
    (∀ e ∈ [(⟨3, EventKind.rise, 0⟩ : VisEvent), ⟨4, EventKind.culmination, 50⟩],
        e.kind ≠ EventKind.set) ∧
      predict_leo_passes
          ([(⟨0, EventKind.rise, 0⟩ : VisEvent), ⟨1, EventKind.culmination, 45⟩,
            ⟨2, EventKind.set, 0⟩] ++
           [(⟨3, EventKind.rise, 0⟩ : VisEvent), ⟨4, EventKind.culmination, 50⟩])
        = predict_leo_passes
            [(⟨0, EventKind.rise, 0⟩ : VisEvent), ⟨1, EventKind.culmination, 45⟩,
             ⟨2, EventKind.set, 0⟩] :=
  ⟨by decide, c8_no_record_without_set _ _ (by decide)⟩

/-! ### GEO geometry

Embedding of `geo_arc_survey.py` (`calculate_geo_angles`,
`calculate_slant_range`, and the scoring part of `survey_geo_arc`) and of the
inline GEO computation of `calculate_geo_visibility` in
`satellite_pass_predictor.py`.  Python floats and `math` functions are
embedded as real numbers and real trigonometric functions. -/

noncomputable section

/-- `R_EARTH = 6371.0` km. -/
def R_EARTH : ℝ := 6371

/-- `R_GEO = 42164.0` km (Earth centre to GEO orbit). -/
def R_GEO : ℝ := 42164

/-- `DHAKA_LAT = 23.8103` °N. -/
def DHAKA_LAT : ℝ := 23.8103

/-- `DHAKA_LON = 90.4125` °E. -/
def DHAKA_LON : ℝ := 90.4125

/-- `MIN_ELEVATION = 5.0` degrees. -/
def MIN_ELEVATION : ℝ := 5

/-- `math.radians`. -/
def deg2rad (x : ℝ) : ℝ := x * π / 180

/-- `math.degrees`. -/
def rad2deg (x : ℝ) : ℝ := x * 180 / π

/-- Python `math.atan2`: quadrant-aware arctangent with range `(-π, π]`. -/
def atan2 (y x : ℝ) : ℝ :=
  if 0 < x then arctan (y / x)
  else if x < 0 then (if 0 ≤ y then arctan (y / x) + π else arctan (y / x) - π)
  else if 0 < y then π / 2
  else if y < 0 then -(π / 2)
  else 0

/-- Python float `%` for a positive modulus (`x % m = x - m*⌊x/m⌋`). -/
def pymod (x m : ℝ) : ℝ := x - m * ⌊x / m⌋

/-- `cos_gamma = math.cos(lat) * math.cos(delta_lon)` of `calculate_geo_angles`,
with the observer position kept as a parameter. -/
def cosGammaGen (lat lon sat_lon : ℝ) : ℝ :=
  Real.cos (deg2rad lat) * Real.cos (deg2rad (sat_lon - lon))

/-- The `elevation` expression of `calculate_geo_angles` (line 94). -/
def geoElevationGen (lat lon sat_lon : ℝ) : ℝ :=
  rad2deg (atan2 (cosGammaGen lat lon sat_lon - R_EARTH / R_GEO)
    (Real.sqrt (1 - cosGammaGen lat lon sat_lon ^ 2)))

/-- The `azimuth` expression of `calculate_geo_angles` (line 103). -/
def geoAzimuthGen (lat lon sat_lon : ℝ) : ℝ :=
  pymod (rad2deg (atan2 (Real.sin (deg2rad (sat_lon - lon)))
    (-Real.cos (deg2rad (sat_lon - lon)) * Real.sin (deg2rad lat)))) 360

/-- `calculate_geo_angles` with the observer position as a parameter:
`(None, None)` when `cos_gamma <= r_ratio` or `elevation < MIN_ELEVATION`,
otherwise `(elevation, azimuth)`. -/
def calcGeoAnglesGen (lat lon sat_lon : ℝ) : Option (ℝ × ℝ) :=
  if cosGammaGen lat lon sat_lon ≤ R_EARTH / R_GEO then none
  else if geoElevationGen lat lon sat_lon < MIN_ELEVATION then none
  else some (geoElevationGen lat lon sat_lon, geoAzimuthGen lat lon sat_lon)

/-- `calculate_geo_angles` as in the script, for the hard-coded Dhaka
observer. -/
def calculate_geo_angles (sat_lon : ℝ) : Option (ℝ × ℝ) :=
  calcGeoAnglesGen DHAKA_LAT DHAKA_LON sat_lon

/-- The elevation component for the Dhaka observer. -/
def geoElevation (sat_lon : ℝ) : ℝ := geoElevationGen DHAKA_LAT DHAKA_LON sat_lon

/-- The azimuth component for the Dhaka observer. -/
def geoAzimuth (sat_lon : ℝ) : ℝ := geoAzimuthGen DHAKA_LAT DHAKA_LON sat_lon

/-- `calculate_slant_range` (lines 111–118). -/
def calculate_slant_range (elevation : ℝ) : ℝ :=
  R_EARTH * (-Real.sin (deg2rad elevation) +
    Real.sqrt (Real.sin (deg2rad elevation) ^ 2 + (R_GEO / R_EARTH) ^ 2 - 1))

/-- The predictor script's crude π literal (`3.14159`, lines 110–111). -/
def PI_APPROX : ℝ := 3.14159

/-- `cos_gamma` of `calculate_geo_visibility` (line 115): absolute
delta-longitude, degrees converted with the `3.14159` literal. -/
def predCosGamma (lon : ℝ) : ℝ :=
  Real.cos (23.8103 * PI_APPROX / 180) * Real.cos (|lon - 90.4125| * PI_APPROX / 180)

/-- The `elevation` expression of `calculate_geo_visibility` (line 118):
`math.atan` of the quotient, then `math.degrees`. -/
def predElevation (lon : ℝ) : ℝ :=
  rad2deg (arctan ((predCosGamma lon - 6371 / 42164) /
    Real.sqrt (1 - predCosGamma lon ^ 2)))

/-- The `azimuth` expression of `calculate_geo_visibility` (line 121). -/
def predAzimuth (lon : ℝ) : ℝ :=
  pymod (rad2deg (atan2 (Real.sin (|lon - 90.4125| * PI_APPROX / 180))
    (-Real.cos (|lon - 90.4125| * PI_APPROX / 180) *
      Real.sin (23.8103 * PI_APPROX / 180)))) 360

/-- One catalog entry of the `calculate_geo_visibility` loop: the entry is
kept iff `arc_min <= lon <= arc_max` and `cos_gamma > 0.1513`, in which case
its elevation and azimuth are computed. -/
def calculate_geo_visibility_entry (arc_min arc_max lon : ℝ) : Option (ℝ × ℝ) :=
  if arc_min ≤ lon ∧ lon ≤ arc_max then
    if 0.1513 < predCosGamma lon then some (predElevation lon, predAzimuth lon)
    else none
  else none

/-- Python's substring test `needle in haystack`. -/
def containsSub (needle haystack : String) : Prop :=
  needle.data <:+: haystack.data

instance (n h : String) : Decidable (containsSub n h) :=
  List.decidableInfix n.data h.data

/-- Priority scoring of `survey_geo_arc` (lines 136–144): sequential `+=`
starting from 0, over the computed elevation and the catalog strings. -/
def priority_score (elevation : ℝ) (bands coverage : String) : ℝ :=
  ((0 + min (elevation / 10) 5) +
      (if containsSub "Ku" bands then 3 else 0) +
      (if containsSub "Bangladesh" coverage ∨ containsSub "South Asia" coverage
        then 2 else 0)) +
    (if containsSub "India" coverage then 1 else 0)

/-- Tier assignment of `survey_geo_arc` (lines 146–151). -/
def priorityOf (score : ℝ) : String :=
  if score ≥ 7 then "HIGH" else if score ≥ 4 then "MEDIUM" else "LOW"

end

/-! ### Claim C1 — the visibility test of the GEO geometry -/

/-- C1: for every observer position and target longitude,
`calculate_geo_angles` returns no result iff `cos_gamma ≤ R_earth/R_geo` or
the elevation is strictly below the configured minimum; in particular an
elevation exactly equal to `MIN_ELEVATION` is kept (the bound is
inclusive). -/
theorem c1_not_visible_iff (lat lon sat_lon : ℝ) :
    calcGeoAnglesGen lat lon sat_lon = none ↔
      (cosGammaGen lat lon sat_lon ≤ R_EARTH / R_GEO ∨
        geoElevationGen lat lon sat_lon < MIN_ELEVATION) := by
  unfold calcGeoAnglesGen
  split_ifs with h1 h2
  · simp [h1]
  · simp [h1, h2]
  · simp [h1, h2]

/-! ### Claim C9 — priority scoring -/

/-- C9: the priority score of a visible catalog entry is
`min(elevation/10, 5)` plus 3 for Ku-band entries, plus 2 for
Bangladesh/South-Asia coverage, plus 1 for India coverage; and the tier is
HIGH exactly when the score is at least 7, MEDIUM exactly when it is in
`[4, 7)`, and LOW exactly when it is below 4. -/
theorem c9_priority_scoring (elevation : ℝ) (bands coverage : String) :
    priority_score elevation bands coverage =
        min (elevation / 10) 5 + (if containsSub "Ku" bands then 3 else 0) +
          (if containsSub "Bangladesh" coverage ∨ containsSub "South Asia" coverage
            then 2 else 0) +
          (if containsSub "India" coverage then 1 else 0) ∧
      (priorityOf (priority_score elevation bands coverage) = "HIGH" ↔
        7 ≤ priority_score elevation bands coverage) ∧
      (priorityOf (priority_score elevation bands coverage) = "MEDIUM" ↔
        4 ≤ priority_score elevation bands coverage ∧
          priority_score elevation bands coverage < 7) ∧
      (priorityOf (priority_score elevation bands coverage) = "LOW" ↔
        priority_score elevation bands coverage < 4) := by
  refine ⟨by unfold priority_score; ring, ?_, ?_, ?_⟩ <;>
    · unfold priorityOf
      split_ifs with h1 h2 <;> simp_all <;> try linarith

/-! ### Interval-arithmetic machinery

Rational enclosures for the trigonometric values appearing in the concrete
Dhaka → 119.1°E scenario, built from the degree-2/3 Taylor bounds
`Real.cos_bound` / `Real.sin_bound` on half angles and the π enclosure
`3.141592 < π < 3.141593`. -/

theorem cos_ge_poly {x l u : ℝ} (h0 : 0 ≤ l) (hl : l ≤ x) (hu : x ≤ u) (h1 : u ≤ 1) :
    1 - u ^ 2 / 2 - u ^ 4 * (5 / 96) ≤ Real.cos x := by
  have hx0 : 0 ≤ x := le_trans h0 hl
  have habs : |x| ≤ 1 := by rw [abs_of_nonneg hx0]; linarith
  have hb := abs_le.mp (Real.cos_bound habs)
  rw [abs_of_nonneg hx0] at hb
  have h2 : x ^ 2 ≤ u ^ 2 := pow_le_pow_left₀ hx0 hu 2
  have h4 : x ^ 4 ≤ u ^ 4 := pow_le_pow_left₀ hx0 hu 4
  linarith [hb.1]

theorem cos_le_poly {x l u : ℝ} (h0 : 0 ≤ l) (hl : l ≤ x) (hu : x ≤ u) (h1 : u ≤ 1) :
    Real.cos x ≤ 1 - l ^ 2 / 2 + u ^ 4 * (5 / 96) := by
  have hx0 : 0 ≤ x := le_trans h0 hl
  have habs : |x| ≤ 1 := by rw [abs_of_nonneg hx0]; linarith
  have hb := abs_le.mp (Real.cos_bound habs)
  rw [abs_of_nonneg hx0] at hb
  have h2 : l ^ 2 ≤ x ^ 2 := pow_le_pow_left₀ h0 hl 2
  have h4 : x ^ 4 ≤ u ^ 4 := pow_le_pow_left₀ hx0 hu 4
  linarith [hb.2]

theorem sin_ge_poly {x l u : ℝ} (h0 : 0 ≤ l) (hl : l ≤ x) (hu : x ≤ u) (h1 : u ≤ 1) :
    l - u ^ 3 / 6 - u ^ 4 * (5 / 96) ≤ Real.sin x := by
  have hx0 : 0 ≤ x := le_trans h0 hl
  have habs : |x| ≤ 1 := by rw [abs_of_nonneg hx0]; linarith
  have hb := abs_le.mp (Real.sin_bound habs)
  rw [abs_of_nonneg hx0] at hb
  have h3 : x ^ 3 ≤ u ^ 3 := pow_le_pow_left₀ hx0 hu 3
  have h4 : x ^ 4 ≤ u ^ 4 := pow_le_pow_left₀ hx0 hu 4
  linarith [hb.1]

theorem sin_le_poly {x l u : ℝ} (h0 : 0 ≤ l) (hl : l ≤ x) (hu : x ≤ u) (h1 : u ≤ 1) :
    Real.sin x ≤ u - l ^ 3 / 6 + u ^ 4 * (5 / 96) := by
  have hx0 : 0 ≤ x := le_trans h0 hl
  have habs : |x| ≤ 1 := by rw [abs_of_nonneg hx0]; linarith
  have hb := abs_le.mp (Real.sin_bound habs)
  rw [abs_of_nonneg hx0] at hb
  have h3 : l ^ 3 ≤ x ^ 3 := pow_le_pow_left₀ h0 hl 3
  have h4 : x ^ 4 ≤ u ^ 4 := pow_le_pow_left₀ hx0 hu 4
  linarith [hb.2]

theorem cos_double_sin_sq (x : ℝ) : Real.cos (2 * x) = 1 - 2 * Real.sin x ^ 2 := by
  have h1 := Real.cos_two_mul x
  have h2 := Real.sin_sq_add_cos_sq x
  linarith

theorem mul_mem_bounds {a b p q r s : ℝ} (h1 : p ≤ a) (h2 : a ≤ q) (h3 : r ≤ b)
    (h4 : b ≤ s) (h5 : 0 ≤ p) (h6 : 0 ≤ r) :
    p * r ≤ a * b ∧ a * b ≤ q * s := by
  constructor
  · exact mul_le_mul h1 h3 h6 (le_trans h5 h1)
  · exact mul_le_mul h2 h4 (le_trans h6 h3) (le_trans (le_trans h5 h1) h2)

theorem div_mem_bounds {a b p q r s : ℝ} (h1 : p ≤ a) (h2 : a ≤ q) (h3 : r ≤ b)
    (h4 : b ≤ s) (h5 : 0 ≤ p) (h6 : 0 < r) :
    p / s ≤ a / b ∧ a / b ≤ q / r := by
  constructor
  · exact div_le_div₀ (le_trans h5 h1) h1 (lt_of_lt_of_le h6 h3) h4
  · exact div_le_div₀ (le_trans (le_trans h5 h1) h2) h2 h6 h3

theorem sqrt_mem_bounds {x l u p q : ℝ} (h1 : l ≤ x) (h2 : x ≤ u) (h3 : p ^ 2 ≤ l)
    (h4 : u ≤ q ^ 2) (h5 : 0 ≤ q) :
    p ≤ Real.sqrt x ∧ Real.sqrt x ≤ q := by
  constructor
  · exact Real.le_sqrt_of_sq_le (le_trans h3 h1)
  · calc Real.sqrt x ≤ Real.sqrt (q ^ 2) := Real.sqrt_le_sqrt (le_trans h2 h4)
    _ = q := Real.sqrt_sq h5

theorem lt_arctan_of_tan_lt {t r : ℝ} (h1 : -(π / 2) < t) (h2 : t < π / 2)
    (h : Real.tan t < r) : t < Real.arctan r := by
  have hm := Real.arctan_strictMono h
  rwa [Real.arctan_tan h1 h2] at hm

theorem arctan_lt_of_lt_tan {t r : ℝ} (h1 : -(π / 2) < t) (h2 : t < π / 2)
    (h : r < Real.tan t) : Real.arctan r < t := by
  have hm := Real.arctan_strictMono h
  rwa [Real.arctan_tan h1 h2] at hm

theorem tan_pi_div_four_add (a : ℝ) :
    Real.tan (π / 4 + a) = (Real.cos a + Real.sin a) / (Real.cos a - Real.sin a) := by
  have hs : Real.sin (π / 4 + a) = Real.sqrt 2 / 2 * (Real.cos a + Real.sin a) := by
    rw [Real.sin_add, Real.sin_pi_div_four, Real.cos_pi_div_four]; ring
  have hc : Real.cos (π / 4 + a) = Real.sqrt 2 / 2 * (Real.cos a - Real.sin a) := by
    rw [Real.cos_add, Real.sin_pi_div_four, Real.cos_pi_div_four]; ring
  have hne : Real.sqrt 2 / 2 ≠ 0 := by positivity
  rw [Real.tan_eq_sin_div_cos, hs, hc, mul_div_mul_left _ _ hne]

theorem tan_pi_div_three_eq : Real.tan (π / 3) = Real.sqrt 3 := by
  rw [Real.tan_eq_sin_div_cos, Real.sin_pi_div_three, Real.cos_pi_div_three]
  ring

theorem pymod_eq_self {x : ℝ} (h0 : 0 ≤ x) (h1 : x < 360) : pymod x 360 = x := by
  unfold pymod
  have hf : ⌊x / 360⌋ = 0 := by
    rw [Int.floor_eq_zero_iff]
    refine Set.mem_Ico.mpr ⟨by positivity, ?_⟩
    rw [div_lt_one (by norm_num)]
    linarith
  rw [hf]
  push_cast
  ring

theorem pymod_eq_add {x : ℝ} (h0 : -360 ≤ x) (h1 : x < 0) : pymod x 360 = x + 360 := by
  unfold pymod
  have hf : ⌊x / 360⌋ = -1 := by
    rw [Int.floor_eq_iff]
    constructor
    · push_cast
      rw [le_div_iff₀ (by norm_num : (0:ℝ) < 360)]
      linarith
    · push_cast
      rw [div_lt_iff₀ (by norm_num : (0:ℝ) < 360)]
      linarith
  rw [hf]
  push_cast
  ring

theorem atan2_of_pos_x {y x : ℝ} (hx : 0 < x) : atan2 y x = Real.arctan (y / x) := by
  unfold atan2
  rw [if_pos hx]

theorem atan2_of_neg_x {y x : ℝ} (hx : x < 0) (hy : 0 ≤ y) :
    atan2 y x = Real.arctan (y / x) + π := by
  unfold atan2
  rw [if_neg (by linarith), if_pos hx, if_pos hy]

theorem atan2_of_neg_x_neg_y {y x : ℝ} (hx : x < 0) (hy : y < 0) :
    atan2 y x = Real.arctan (y / x) - π := by
  unfold atan2
  rw [if_neg (by linarith), if_pos hx, if_neg (by linarith)]

theorem ph_bounds : (0.2077840 : ℝ) ≤ 23.8103 * π / 360 ∧ 23.8103 * π / 360 ≤ 0.2077841 :=
  ⟨by linarith [Real.pi_gt_d6], by linarith [Real.pi_lt_d6]⟩

theorem sin_ph_bounds :
    (0.2061917 : ℝ) ≤ Real.sin (23.8103 * π / 360) ∧ Real.sin (23.8103 * π / 360) ≤ 0.2063861 := by
  have h := ph_bounds
  constructor
  · have hg := sin_ge_poly (by norm_num) h.1 h.2 (by norm_num)
    have hc : (0.2061917 : ℝ) ≤ 0.2077840 - 0.2077841 ^ 3 / 6 - 0.2077841 ^ 4 * (5 / 96) := by norm_num
    linarith
  · have hg := sin_le_poly (by norm_num) h.1 h.2 (by norm_num)
    have hc : (0.2077841 : ℝ) - 0.2077840 ^ 3 / 6 + 0.2077841 ^ 4 * (5 / 96) ≤ 0.2063861 := by norm_num
    linarith

theorem cos_ph_bounds :
    (0.9783157 : ℝ) ≤ Real.cos (23.8103 * π / 360) ∧ Real.cos (23.8103 * π / 360) ≤ 0.9785100 := by
  have h := ph_bounds
  constructor
  · have hg := cos_ge_poly (by norm_num) h.1 h.2 (by norm_num)
    have hc : (0.9783157 : ℝ) ≤ 1 - 0.2077841 ^ 2 / 2 - 0.2077841 ^ 4 * (5 / 96) := by norm_num
    linarith
  · have hg := cos_le_poly (by norm_num) h.1 h.2 (by norm_num)
    have hc : (1 : ℝ) - 0.2077840 ^ 2 / 2 + 0.2077841 ^ 4 * (5 / 96) ≤ 0.9785100 := by norm_num
    linarith

theorem dh_bounds : (0.2503456 : ℝ) ≤ 28.6875 * π / 360 ∧ 28.6875 * π / 360 ≤ 0.2503457 :=
  ⟨by linarith [Real.pi_gt_d6], by linarith [Real.pi_lt_d6]⟩

theorem sin_dh_bounds :
    (0.2475260 : ℝ) ≤ Real.sin (28.6875 * π / 360) ∧ Real.sin (28.6875 * π / 360) ≤ 0.2479353 := by
  have h := dh_bounds
  constructor
  · have hg := sin_ge_poly (by norm_num) h.1 h.2 (by norm_num)
    have hc : (0.2475260 : ℝ) ≤ 0.2503456 - 0.2503457 ^ 3 / 6 - 0.2503457 ^ 4 * (5 / 96) := by norm_num
    linarith
  · have hg := sin_le_poly (by norm_num) h.1 h.2 (by norm_num)
    have hc : (0.2503457 : ℝ) - 0.2503456 ^ 3 / 6 + 0.2503457 ^ 4 * (5 / 96) ≤ 0.2479353 := by norm_num
    linarith

theorem cos_dh_bounds :
    (0.9684589 : ℝ) ≤ Real.cos (28.6875 * π / 360) ∧ Real.cos (28.6875 * π / 360) ≤ 0.9688682 := by
  have h := dh_bounds
  constructor
  · have hg := cos_ge_poly (by norm_num) h.1 h.2 (by norm_num)
    have hc : (0.9684589 : ℝ) ≤ 1 - 0.2503457 ^ 2 / 2 - 0.2503457 ^ 4 * (5 / 96) := by norm_num
    linarith
  · have hg := cos_le_poly (by norm_num) h.1 h.2 (by norm_num)
    have hc : (1 : ℝ) - 0.2503456 ^ 2 / 2 + 0.2503457 ^ 4 * (5 / 96) ≤ 0.9688682 := by norm_num
    linarith

theorem a90_bounds : (0.0349065 : ℝ) ≤ π / 90 ∧ π / 90 ≤ 0.0349066 :=
  ⟨by linarith [Real.pi_gt_d6], by linarith [Real.pi_lt_d6]⟩

theorem sin_a90_bounds :
    (0.0348993 : ℝ) ≤ Real.sin (π / 90) ∧ Real.sin (π / 90) ≤ 0.0348996 := by
  have h := a90_bounds
  constructor
  · have hg := sin_ge_poly (by norm_num) h.1 h.2 (by norm_num)
    have hc : (0.0348993 : ℝ) ≤ 0.0349065 - 0.0349066 ^ 3 / 6 - 0.0349066 ^ 4 * (5 / 96) := by norm_num
    linarith
  · have hg := sin_le_poly (by norm_num) h.1 h.2 (by norm_num)
    have hc : (0.0349066 : ℝ) - 0.0349065 ^ 3 / 6 + 0.0349066 ^ 4 * (5 / 96) ≤ 0.0348996 := by norm_num
    linarith

theorem cos_a90_bounds :
    (0.9993906 : ℝ) ≤ Real.cos (π / 90) ∧ Real.cos (π / 90) ≤ 0.9993909 := by
  have h := a90_bounds
  constructor
  · have hg := cos_ge_poly (by norm_num) h.1 h.2 (by norm_num)
    have hc : (0.9993906 : ℝ) ≤ 1 - 0.0349066 ^ 2 / 2 - 0.0349066 ^ 4 * (5 / 96) := by norm_num
    linarith
  · have hg := cos_le_poly (by norm_num) h.1 h.2 (by norm_num)
    have hc : (1 : ℝ) - 0.0349065 ^ 2 / 2 + 0.0349066 ^ 4 * (5 / 96) ≤ 0.9993909 := by norm_num
    linarith

theorem a60_bounds : (0.0523598 : ℝ) ≤ π / 60 ∧ π / 60 ≤ 0.0523599 :=
  ⟨by linarith [Real.pi_gt_d6], by linarith [Real.pi_lt_d6]⟩

theorem sin_a60_bounds :
    (0.0523354 : ℝ) ≤ Real.sin (π / 60) ∧ Real.sin (π / 60) ≤ 0.0523364 := by
  have h := a60_bounds
  constructor
  · have hg := sin_ge_poly (by norm_num) h.1 h.2 (by norm_num)
    have hc : (0.0523354 : ℝ) ≤ 0.0523598 - 0.0523599 ^ 3 / 6 - 0.0523599 ^ 4 * (5 / 96) := by norm_num
    linarith
  · have hg := sin_le_poly (by norm_num) h.1 h.2 (by norm_num)
    have hc : (0.0523599 : ℝ) - 0.0523598 ^ 3 / 6 + 0.0523599 ^ 4 * (5 / 96) ≤ 0.0523364 := by norm_num
    linarith

theorem cos_a60_bounds :
    (0.9986288 : ℝ) ≤ Real.cos (π / 60) ∧ Real.cos (π / 60) ≤ 0.9986297 := by
  have h := a60_bounds
  constructor
  · have hg := cos_ge_poly (by norm_num) h.1 h.2 (by norm_num)
    have hc : (0.9986288 : ℝ) ≤ 1 - 0.0523599 ^ 2 / 2 - 0.0523599 ^ 4 * (5 / 96) := by norm_num
    linarith
  · have hg := cos_le_poly (by norm_num) h.1 h.2 (by norm_num)
    have hc : (1 : ℝ) - 0.0523598 ^ 2 / 2 + 0.0523599 ^ 4 * (5 / 96) ≤ 0.9986297 := by norm_num
    linarith

theorem a36_bounds : (0.0872664 : ℝ) ≤ π / 36 ∧ π / 36 ≤ 0.0872665 :=
  ⟨by linarith [Real.pi_gt_d6], by linarith [Real.pi_lt_d6]⟩

theorem sin_a36_bounds :
    (0.0871526 : ℝ) ≤ Real.sin (π / 36) ∧ Real.sin (π / 36) ≤ 0.0871588 := by
  have h := a36_bounds
  constructor
  · have hg := sin_ge_poly (by norm_num) h.1 h.2 (by norm_num)
    have hc : (0.0871526 : ℝ) ≤ 0.0872664 - 0.0872665 ^ 3 / 6 - 0.0872665 ^ 4 * (5 / 96) := by norm_num
    linarith
  · have hg := sin_le_poly (by norm_num) h.1 h.2 (by norm_num)
    have hc : (0.0872665 : ℝ) - 0.0872664 ^ 3 / 6 + 0.0872665 ^ 4 * (5 / 96) ≤ 0.0871588 := by norm_num
    linarith

theorem cos_a36_bounds :
    (0.9961892 : ℝ) ≤ Real.cos (π / 36) ∧ Real.cos (π / 36) ≤ 0.9961954 := by
  have h := a36_bounds
  constructor
  · have hg := cos_ge_poly (by norm_num) h.1 h.2 (by norm_num)
    have hc : (0.9961892 : ℝ) ≤ 1 - 0.0872665 ^ 2 / 2 - 0.0872665 ^ 4 * (5 / 96) := by norm_num
    linarith
  · have hg := cos_le_poly (by norm_num) h.1 h.2 (by norm_num)
    have hc : (1 : ℝ) - 0.0872664 ^ 2 / 2 + 0.0872665 ^ 4 * (5 / 96) ≤ 0.9961954 := by norm_num
    linarith


/-! Derived enclosures for the Dhaka → 119.1°E scenario. -/

theorem deg2rad_dhaka_lat : deg2rad DHAKA_LAT = 2 * (23.8103 * π / 360) := by
  unfold deg2rad DHAKA_LAT
  ring

theorem deg2rad_dlam119 : deg2rad ((119.1 : ℝ) - DHAKA_LON) = 2 * (28.6875 * π / 360) := by
  unfold deg2rad DHAKA_LON
  norm_num
  ring

theorem sin_phi_bounds :
    (0.4034411 : ℝ) ≤ Real.sin (deg2rad DHAKA_LAT) ∧
      Real.sin (deg2rad DHAKA_LAT) ≤ 0.4039018 := by
  rw [deg2rad_dhaka_lat, Real.sin_two_mul]
  have hs := sin_ph_bounds
  have hc := cos_ph_bounds
  have h := mul_mem_bounds hs.1 hs.2 hc.1 hc.2 (by norm_num) (by norm_num)
  constructor
  · have hq : (0.4034411 : ℝ) ≤ 2 * (0.2061917 * 0.9783157) := by norm_num
    linarith [h.1]
  · have hq : (2 : ℝ) * (0.2063861 * 0.9785100) ≤ 0.4039018 := by norm_num
    linarith [h.2]

theorem cos_phi_bounds :
    (0.9148095 : ℝ) ≤ Real.cos (deg2rad DHAKA_LAT) ∧
      Real.cos (deg2rad DHAKA_LAT) ≤ 0.9149700 := by
  rw [deg2rad_dhaka_lat, cos_double_sin_sq]
  have hs := sin_ph_bounds
  have h1 : (0.2061917 : ℝ) ^ 2 ≤ Real.sin (23.8103 * π / 360) ^ 2 :=
    pow_le_pow_left₀ (by norm_num) hs.1 2
  have h2 : Real.sin (23.8103 * π / 360) ^ 2 ≤ (0.2063861 : ℝ) ^ 2 :=
    pow_le_pow_left₀ (le_trans (by norm_num) hs.1) hs.2 2
  constructor
  · have hq : (0.9148095 : ℝ) ≤ 1 - 2 * (0.2063861 : ℝ) ^ 2 := by norm_num
    linarith
  · have hq : (1 : ℝ) - 2 * (0.2061917 : ℝ) ^ 2 ≤ 0.9149700 := by norm_num
    linarith

theorem sin_dlam_bounds :
    (0.4794375 : ℝ) ≤ Real.sin (deg2rad ((119.1 : ℝ) - DHAKA_LON)) ∧
      Real.sin (deg2rad ((119.1 : ℝ) - DHAKA_LON)) ≤ 0.4804333 := by
  rw [deg2rad_dlam119, Real.sin_two_mul]
  have hs := sin_dh_bounds
  have hc := cos_dh_bounds
  have h := mul_mem_bounds hs.1 hs.2 hc.1 hc.2 (by norm_num) (by norm_num)
  constructor
  · have hq : (0.4794375 : ℝ) ≤ 2 * (0.2475260 * 0.9684589) := by norm_num
    linarith [h.1]
  · have hq : (2 : ℝ) * (0.2479353 * 0.9688682) ≤ 0.4804333 := by norm_num
    linarith [h.2]

theorem cos_dlam_bounds :
    (0.8770561 : ℝ) ≤ Real.cos (deg2rad ((119.1 : ℝ) - DHAKA_LON)) ∧
      Real.cos (deg2rad ((119.1 : ℝ) - DHAKA_LON)) ≤ 0.8774618 := by
  rw [deg2rad_dlam119, cos_double_sin_sq]
  have hs := sin_dh_bounds
  have h1 : (0.2475260 : ℝ) ^ 2 ≤ Real.sin (28.6875 * π / 360) ^ 2 :=
    pow_le_pow_left₀ (by norm_num) hs.1 2
  have h2 : Real.sin (28.6875 * π / 360) ^ 2 ≤ (0.2479353 : ℝ) ^ 2 :=
    pow_le_pow_left₀ (le_trans (by norm_num) hs.1) hs.2 2
  constructor
  · have hq : (0.8770561 : ℝ) ≤ 1 - 2 * (0.2479353 : ℝ) ^ 2 := by norm_num
    linarith
  · have hq : (1 : ℝ) - 2 * (0.2475260 : ℝ) ^ 2 ≤ 0.8774618 := by norm_num
    linarith

theorem cg119_bounds :
    (0.8023392 : ℝ) ≤ cosGammaGen DHAKA_LAT DHAKA_LON 119.1 ∧
      cosGammaGen DHAKA_LAT DHAKA_LON 119.1 ≤ 0.8028513 := by
  unfold cosGammaGen
  have hp := cos_phi_bounds
  have hd := cos_dlam_bounds
  have h := mul_mem_bounds hp.1 hp.2 hd.1 hd.2 (by norm_num) (by norm_num)
  constructor
  · have hq : (0.8023392 : ℝ) ≤ 0.9148095 * 0.8770561 := by norm_num
    linarith [h.1]
  · have hq : (0.9149700 : ℝ) * 0.8774618 ≤ 0.8028513 := by norm_num
    linarith [h.2]

theorem den119_bounds :
    (0.5961791 : ℝ) ≤ Real.sqrt (1 - cosGammaGen DHAKA_LAT DHAKA_LON 119.1 ^ 2) ∧
      Real.sqrt (1 - cosGammaGen DHAKA_LAT DHAKA_LON 119.1 ^ 2) ≤ 0.5968685 := by
  have hc := cg119_bounds
  have h1 : cosGammaGen DHAKA_LAT DHAKA_LON 119.1 ^ 2 ≤ (0.8028513 : ℝ) ^ 2 :=
    pow_le_pow_left₀ (le_trans (by norm_num) hc.1) hc.2 2
  have h2 : (0.8023392 : ℝ) ^ 2 ≤ cosGammaGen DHAKA_LAT DHAKA_LON 119.1 ^ 2 :=
    pow_le_pow_left₀ (by norm_num) hc.1 2
  have hl : (1 : ℝ) - 0.8028513 ^ 2 ≤ 1 - cosGammaGen DHAKA_LAT DHAKA_LON 119.1 ^ 2 := by
    linarith
  have hu : 1 - cosGammaGen DHAKA_LAT DHAKA_LON 119.1 ^ 2 ≤ (1 : ℝ) - 0.8023392 ^ 2 := by
    linarith
  exact sqrt_mem_bounds hl hu (by norm_num) (by norm_num) (by norm_num)

theorem rr_eq : R_EARTH / R_GEO = (6371 : ℝ) / 42164 := by
  unfold R_EARTH R_GEO
  norm_num

theorem ratio119_bounds :
    (1.0910924 : ℝ) ≤ (cosGammaGen DHAKA_LAT DHAKA_LON 119.1 - R_EARTH / R_GEO) /
        Real.sqrt (1 - cosGammaGen DHAKA_LAT DHAKA_LON 119.1 ^ 2) ∧
      (cosGammaGen DHAKA_LAT DHAKA_LON 119.1 - R_EARTH / R_GEO) /
        Real.sqrt (1 - cosGammaGen DHAKA_LAT DHAKA_LON 119.1 ^ 2) ≤ 1.0932132 := by
  have hc := cg119_bounds
  have hd := den119_bounds
  have hn1 : (0.8023392 : ℝ) - 6371 / 42164 ≤
      cosGammaGen DHAKA_LAT DHAKA_LON 119.1 - R_EARTH / R_GEO := by
    rw [rr_eq]
    linarith [hc.1]
  have hn2 : cosGammaGen DHAKA_LAT DHAKA_LON 119.1 - R_EARTH / R_GEO ≤
      (0.8028513 : ℝ) - 6371 / 42164 := by
    rw [rr_eq]
    linarith [hc.2]
  have h := div_mem_bounds hn1 hn2 hd.1 hd.2 (by norm_num) (by norm_num)
  constructor
  · have hq : (1.0910924 : ℝ) ≤ (0.8023392 - 6371 / 42164) / 0.5968685 := by norm_num
    linarith [h.1]
  · have hq : ((0.8028513 : ℝ) - 6371 / 42164) / 0.5961791 ≤ 1.0932132 := by norm_num
    linarith [h.2]

theorem t119_bounds :
    (1.3527825 : ℝ) ≤ Real.sin (deg2rad ((119.1 : ℝ) - DHAKA_LON)) /
        (Real.cos (deg2rad ((119.1 : ℝ) - DHAKA_LON)) * Real.sin (deg2rad DHAKA_LAT)) ∧
      Real.sin (deg2rad ((119.1 : ℝ) - DHAKA_LON)) /
        (Real.cos (deg2rad ((119.1 : ℝ) - DHAKA_LON)) * Real.sin (deg2rad DHAKA_LAT)) ≤
        1.3577681 := by
  have hs := sin_dlam_bounds
  have hc := cos_dlam_bounds
  have hp := sin_phi_bounds
  have hden := mul_mem_bounds hc.1 hc.2 hp.1 hp.2 (by norm_num) (by norm_num)
  have h := div_mem_bounds hs.1 hs.2 hden.1 hden.2 (by norm_num) (by positivity)
  constructor
  · have hq : (1.3527825 : ℝ) ≤ 0.4794375 / (0.8774618 * 0.4039018) := by norm_num
    linarith [h.1]
  · have hq : (0.4804333 : ℝ) / (0.8770561 * 0.4034411) ≤ 1.3577681 := by norm_num
    linarith [h.2]

/-! Arctangent anchors and the resulting elevation, azimuth and slant-range
enclosures at target longitude 119.1°E. -/

theorem arctan_pos_of_pos {x : ℝ} (hx : 0 < x) : 0 < Real.arctan x := by
  have h := Real.arctan_strictMono hx
  rwa [Real.arctan_zero] at h

theorem arctan_ratio119_gt :
    47 * π / 180 <
      Real.arctan ((cosGammaGen DHAKA_LAT DHAKA_LON 119.1 - R_EARTH / R_GEO) /
        Real.sqrt (1 - cosGammaGen DHAKA_LAT DHAKA_LON 119.1 ^ 2)) := by
  have hr := ratio119_bounds
  have hpi := Real.pi_pos
  have h47 : (47 : ℝ) * π / 180 = π / 4 + π / 90 := by ring
  rw [h47]
  apply lt_arctan_of_tan_lt (by linarith) (by linarith)
  rw [tan_pi_div_four_add]
  have hs := sin_a90_bounds
  have hc := cos_a90_bounds
  have hub : (Real.cos (π / 90) + Real.sin (π / 90)) /
        (Real.cos (π / 90) - Real.sin (π / 90)) ≤
      ((0.9993909 : ℝ) + 0.0348996) / (0.9993906 - 0.0348996) :=
    div_le_div₀ (by norm_num) (by linarith [hc.2, hs.2]) (by norm_num)
      (by linarith [hc.1, hs.2])
  have hq : ((0.9993909 : ℝ) + 0.0348996) / (0.9993906 - 0.0348996) < 1.0910924 := by
    norm_num
  linarith [hr.1]

theorem arctan_ratio119_lt :
    Real.arctan ((cosGammaGen DHAKA_LAT DHAKA_LON 119.1 - R_EARTH / R_GEO) /
        Real.sqrt (1 - cosGammaGen DHAKA_LAT DHAKA_LON 119.1 ^ 2)) <
      48 * π / 180 := by
  have hr := ratio119_bounds
  have hpi := Real.pi_pos
  have h48 : (48 : ℝ) * π / 180 = π / 4 + π / 60 := by ring
  rw [h48]
  apply arctan_lt_of_lt_tan (by linarith) (by linarith)
  rw [tan_pi_div_four_add]
  have hs := sin_a60_bounds
  have hc := cos_a60_bounds
  have hlb : ((0.9986288 : ℝ) + 0.0523354) / (0.9986297 - 0.0523354) ≤
      (Real.cos (π / 60) + Real.sin (π / 60)) /
        (Real.cos (π / 60) - Real.sin (π / 60)) :=
    div_le_div₀ (by linarith [hc.1, hs.1]) (by linarith [hc.1, hs.1])
      (by linarith [hc.1, hs.2]) (by linarith [hc.2, hs.1])
  have hq : (1.0932132 : ℝ) < ((0.9986288 : ℝ) + 0.0523354) / (0.9986297 - 0.0523354) := by
    norm_num
  linarith [hr.2]

theorem arctan_t119_lt :
    Real.arctan (Real.sin (deg2rad ((119.1 : ℝ) - DHAKA_LON)) /
        (Real.cos (deg2rad ((119.1 : ℝ) - DHAKA_LON)) * Real.sin (deg2rad DHAKA_LAT))) <
      π / 3 := by
  have hpi := Real.pi_pos
  apply arctan_lt_of_lt_tan (by linarith) (by linarith)
  rw [tan_pi_div_three_eq]
  have hsq : (1.7320508 : ℝ) ≤ Real.sqrt 3 := Real.le_sqrt_of_sq_le (by norm_num)
  linarith [t119_bounds.2]

theorem arctan_t119_gt :
    π / 4 + π / 36 <
      Real.arctan (Real.sin (deg2rad ((119.1 : ℝ) - DHAKA_LON)) /
        (Real.cos (deg2rad ((119.1 : ℝ) - DHAKA_LON)) * Real.sin (deg2rad DHAKA_LAT))) := by
  have hpi := Real.pi_pos
  apply lt_arctan_of_tan_lt (by linarith) (by linarith)
  rw [tan_pi_div_four_add]
  have hs := sin_a36_bounds
  have hc := cos_a36_bounds
  have hub : (Real.cos (π / 36) + Real.sin (π / 36)) /
        (Real.cos (π / 36) - Real.sin (π / 36)) ≤
      ((0.9961954 : ℝ) + 0.0871588) / (0.9961892 - 0.0871588) :=
    div_le_div₀ (by norm_num) (by linarith [hc.2, hs.2]) (by norm_num)
      (by linarith [hc.1, hs.2])
  have hq : ((0.9961954 : ℝ) + 0.0871588) / (0.9961892 - 0.0871588) < 1.3527825 := by
    norm_num
  linarith [t119_bounds.1]

theorem den119_pos :
    (0 : ℝ) < Real.sqrt (1 - cosGammaGen DHAKA_LAT DHAKA_LON 119.1 ^ 2) :=
  lt_of_lt_of_le (by norm_num) den119_bounds.1

theorem geoElevation119_eq :
    geoElevation 119.1 =
      rad2deg (Real.arctan ((cosGammaGen DHAKA_LAT DHAKA_LON 119.1 - R_EARTH / R_GEO) /
        Real.sqrt (1 - cosGammaGen DHAKA_LAT DHAKA_LON 119.1 ^ 2))) := by
  unfold geoElevation geoElevationGen
  rw [atan2_of_pos_x den119_pos]

theorem elev119_gt : (47 : ℝ) < geoElevation 119.1 := by
  rw [geoElevation119_eq]
  unfold rad2deg
  rw [lt_div_iff₀ Real.pi_pos]
  linarith [arctan_ratio119_gt]

theorem elev119_lt : geoElevation 119.1 < 48 := by
  rw [geoElevation119_eq]
  unfold rad2deg
  rw [div_lt_iff₀ Real.pi_pos]
  linarith [arctan_ratio119_lt]

theorem t119_pos :
    (0 : ℝ) < Real.sin (deg2rad ((119.1 : ℝ) - DHAKA_LON)) /
      (Real.cos (deg2rad ((119.1 : ℝ) - DHAKA_LON)) * Real.sin (deg2rad DHAKA_LAT)) :=
  lt_of_lt_of_le (by norm_num) t119_bounds.1

theorem geoAzimuth119_eq :
    geoAzimuth 119.1 =
      180 - rad2deg (Real.arctan (Real.sin (deg2rad ((119.1 : ℝ) - DHAKA_LON)) /
        (Real.cos (deg2rad ((119.1 : ℝ) - DHAKA_LON)) * Real.sin (deg2rad DHAKA_LAT)))) := by
  unfold geoAzimuth geoAzimuthGen
  have hcd := cos_dlam_bounds
  have hsp := sin_phi_bounds
  have hx : -Real.cos (deg2rad ((119.1 : ℝ) - DHAKA_LON)) * Real.sin (deg2rad DHAKA_LAT) < 0 := by
    nlinarith [hcd.1, hsp.1]
  have hy : 0 ≤ Real.sin (deg2rad ((119.1 : ℝ) - DHAKA_LON)) :=
    le_trans (by norm_num) sin_dlam_bounds.1
  rw [atan2_of_neg_x hx hy]
  have hdiv : Real.sin (deg2rad ((119.1 : ℝ) - DHAKA_LON)) /
      (-Real.cos (deg2rad ((119.1 : ℝ) - DHAKA_LON)) * Real.sin (deg2rad DHAKA_LAT)) =
      -(Real.sin (deg2rad ((119.1 : ℝ) - DHAKA_LON)) /
        (Real.cos (deg2rad ((119.1 : ℝ) - DHAKA_LON)) * Real.sin (deg2rad DHAKA_LAT))) := by
    rw [neg_mul, div_neg]
  rw [hdiv, Real.arctan_neg]
  have hlt := Real.arctan_lt_pi_div_two (Real.sin (deg2rad ((119.1 : ℝ) - DHAKA_LON)) /
    (Real.cos (deg2rad ((119.1 : ℝ) - DHAKA_LON)) * Real.sin (deg2rad DHAKA_LAT)))
  have hgt := arctan_pos_of_pos t119_pos
  have hpi := Real.pi_pos
  have hrd : rad2deg (-Real.arctan (Real.sin (deg2rad ((119.1 : ℝ) - DHAKA_LON)) /
      (Real.cos (deg2rad ((119.1 : ℝ) - DHAKA_LON)) * Real.sin (deg2rad DHAKA_LAT))) + π) =
      180 - rad2deg (Real.arctan (Real.sin (deg2rad ((119.1 : ℝ) - DHAKA_LON)) /
        (Real.cos (deg2rad ((119.1 : ℝ) - DHAKA_LON)) * Real.sin (deg2rad DHAKA_LAT)))) := by
    unfold rad2deg
    field_simp
    ring
  rw [hrd]
  have hub : rad2deg (Real.arctan (Real.sin (deg2rad ((119.1 : ℝ) - DHAKA_LON)) /
      (Real.cos (deg2rad ((119.1 : ℝ) - DHAKA_LON)) * Real.sin (deg2rad DHAKA_LAT)))) < 90 := by
    unfold rad2deg
    rw [div_lt_iff₀ Real.pi_pos]
    linarith
  have hlb : 0 < rad2deg (Real.arctan (Real.sin (deg2rad ((119.1 : ℝ) - DHAKA_LON)) /
      (Real.cos (deg2rad ((119.1 : ℝ) - DHAKA_LON)) * Real.sin (deg2rad DHAKA_LAT)))) := by
    unfold rad2deg
    rw [lt_div_iff₀ Real.pi_pos]
    linarith
  exact pymod_eq_self (by linarith) (by linarith)

theorem azim119_gt : (120 : ℝ) < geoAzimuth 119.1 := by
  rw [geoAzimuth119_eq]
  have h := arctan_t119_lt
  have hq : rad2deg (Real.arctan (Real.sin (deg2rad ((119.1 : ℝ) - DHAKA_LON)) /
      (Real.cos (deg2rad ((119.1 : ℝ) - DHAKA_LON)) * Real.sin (deg2rad DHAKA_LAT)))) < 60 := by
    unfold rad2deg
    rw [div_lt_iff₀ Real.pi_pos]
    linarith
  linarith

theorem azim119_lt : geoAzimuth 119.1 < 130 := by
  rw [geoAzimuth119_eq]
  have h := arctan_t119_gt
  have hq : (50 : ℝ) < rad2deg (Real.arctan (Real.sin (deg2rad ((119.1 : ℝ) - DHAKA_LON)) /
      (Real.cos (deg2rad ((119.1 : ℝ) - DHAKA_LON)) * Real.sin (deg2rad DHAKA_LAT)))) := by
    unfold rad2deg
    rw [lt_div_iff₀ Real.pi_pos]
    linarith
  linarith

theorem deg2rad_rad2deg (x : ℝ) : deg2rad (rad2deg x) = x := by
  unfold deg2rad rad2deg
  field_simp

theorem sinE119_bounds :
    (0.7364323 : ℝ) ≤ Real.sin (deg2rad (geoElevation 119.1)) ∧
      Real.sin (deg2rad (geoElevation 119.1)) ≤ 0.7386438 := by
  rw [geoElevation119_eq, deg2rad_rad2deg, Real.sin_arctan]
  have hr := ratio119_bounds
  set R := (cosGammaGen DHAKA_LAT DHAKA_LON 119.1 - R_EARTH / R_GEO) /
      Real.sqrt (1 - cosGammaGen DHAKA_LAT DHAKA_LON 119.1 ^ 2) with hR
  have hp1 : (1.0910924 : ℝ) ^ 2 ≤ R ^ 2 := pow_le_pow_left₀ (by norm_num) hr.1 2
  have hp2 : R ^ 2 ≤ (1.0932132 : ℝ) ^ 2 :=
    pow_le_pow_left₀ (le_trans (by norm_num) hr.1) hr.2 2
  have h1 : (1 : ℝ) + 1.0910924 ^ 2 ≤ 1 + R ^ 2 := by linarith
  have h2 : 1 + R ^ 2 ≤ (1 : ℝ) + 1.0932132 ^ 2 := by linarith
  have hsq := sqrt_mem_bounds h1 h2
    (by norm_num : (1.4800277 : ℝ) ^ 2 ≤ 1 + 1.0910924 ^ 2)
    (by norm_num : (1 : ℝ) + 1.0932132 ^ 2 ≤ 1.4815922 ^ 2) (by norm_num)
  constructor
  · have hd : (1.0910924 : ℝ) / 1.4815922 ≤ R / Real.sqrt (1 + R ^ 2) :=
      div_le_div₀ (le_trans (by norm_num) hr.1) hr.1
        (lt_of_lt_of_le (by norm_num) hsq.1) hsq.2
    have hq : (0.7364323 : ℝ) ≤ 1.0910924 / 1.4815922 := by norm_num
    linarith
  · have hd : R / Real.sqrt (1 + R ^ 2) ≤ (1.0932132 : ℝ) / 1.4800277 :=
      div_le_div₀ (by norm_num) hr.2 (by norm_num) hsq.1
    have hq : (1.0932132 : ℝ) / 1.4800277 ≤ 0.7386438 := by norm_num
    linarith

theorem slant119_bounds :
    (36500 : ℝ) < calculate_slant_range (geoElevation 119.1) ∧
      calculate_slant_range (geoElevation 119.1) < 37500 := by
  have hs := sinE119_bounds
  unfold calculate_slant_range
  have hk : (R_GEO / R_EARTH : ℝ) = 42164 / 6371 := by
    unfold R_EARTH R_GEO
    norm_num
  have he : R_EARTH = (6371 : ℝ) := by
    unfold R_EARTH
    norm_num
  rw [hk, he]
  set s := Real.sin (deg2rad (geoElevation 119.1)) with hs_def
  have hp1 : (0.7364323 : ℝ) ^ 2 ≤ s ^ 2 := pow_le_pow_left₀ (by norm_num) hs.1 2
  have hp2 : s ^ 2 ≤ (0.7386438 : ℝ) ^ 2 :=
    pow_le_pow_left₀ (le_trans (by norm_num) hs.1) hs.2 2
  have hA : (0.7364323 : ℝ) ^ 2 + (42164 / 6371) ^ 2 - 1 ≤
      s ^ 2 + (42164 / 6371) ^ 2 - 1 := by linarith
  have hB : s ^ 2 + (42164 / 6371) ^ 2 - 1 ≤
      (0.7386438 : ℝ) ^ 2 + (42164 / 6371) ^ 2 - 1 := by linarith
  have hw := sqrt_mem_bounds hA hB
    (by norm_num : (6.5834454 : ℝ) ^ 2 ≤ (0.7364323 : ℝ) ^ 2 + (42164 / 6371) ^ 2 - 1)
    (by norm_num : (0.7386438 : ℝ) ^ 2 + (42164 / 6371) ^ 2 - 1 ≤ (6.5836935 : ℝ) ^ 2)
    (by norm_num)
  constructor
  · have hc : (36500 : ℝ) < 6371 * (-0.7386438 + 6.5834454) := by norm_num
    have h1 := hw.1
    have h2 := hs.2
    nlinarith
  · have hc : (6371 : ℝ) * (-0.7364323 + 6.5836935) < 37500 := by norm_num
    have h1 := hw.2
    have h2 := hs.1
    nlinarith

theorem calc_geo_angles_119 :
    calculate_geo_angles 119.1 = some (geoElevation 119.1, geoAzimuth 119.1) := by
  unfold calculate_geo_angles calcGeoAnglesGen
  have h1 : ¬ (cosGammaGen DHAKA_LAT DHAKA_LON 119.1 ≤ R_EARTH / R_GEO) := by
    rw [rr_eq]
    have hcg := cg119_bounds.1
    have hq : (6371 : ℝ) / 42164 < 0.8023392 := by norm_num
    linarith
  have h2 : ¬ (geoElevationGen DHAKA_LAT DHAKA_LON 119.1 < MIN_ELEVATION) := by
    have hg : geoElevationGen DHAKA_LAT DHAKA_LON 119.1 = geoElevation 119.1 := rfl
    rw [hg]
    unfold MIN_ELEVATION
    have := elev119_gt
    linarith
  rw [if_neg h1, if_neg h2]
  rfl

/-! ### Claim C4 — the concrete Dhaka → Bangabandhu-1 (119.1°E) scenario -/

/-- C4 counterexample: the geometry at the 119.1°E scenario produces a result,
but its elevation is strictly below 48° (≈ 47.52°) and its azimuth is strictly
above 110° (≈ 126.4°), so the claimed ranges `[48, 50]` and `[90, 110]` both
fail; only the slant-range range holds. -/
theorem c4_counterexample :
    calculate_geo_angles 119.1 = some (geoElevation 119.1, geoAzimuth 119.1) ∧
      ¬ (48 ≤ geoElevation 119.1) ∧
      ¬ (90 ≤ geoAzimuth 119.1 ∧ geoAzimuth 119.1 ≤ 110) :=
  ⟨calc_geo_angles_119, not_le.mpr elev119_lt,
    fun h => absurd h.2 (not_le.mpr (lt_trans (by norm_num) azim119_gt))⟩

/-- C4 (amended): for the observer at (23.8103°N, 90.4125°E) and the GEO
target at 119.1°E, the geometry computation yields an elevation in (47°, 48°),
an azimuth in the (120°, 130°) range, and a slant range in
(36 500 km, 37 500 km). -/
theorem c4_scenario :
    calculate_geo_angles 119.1 = some (geoElevation 119.1, geoAzimuth 119.1) ∧
      47 < geoElevation 119.1 ∧ geoElevation 119.1 < 48 ∧
      120 < geoAzimuth 119.1 ∧ geoAzimuth 119.1 < 130 ∧
      36500 < calculate_slant_range (geoElevation 119.1) ∧
      calculate_slant_range (geoElevation 119.1) < 37500 :=
  ⟨calc_geo_angles_119, elev119_gt, elev119_lt, azim119_gt, azim119_lt,
    slant119_bounds.1, slant119_bounds.2⟩

/-! ### Claim C7 — mirror symmetry about the observer longitude -/

theorem azimuth_reflection_pos {y x : ℝ} (hx : x < 0) (hy : 0 < y) :
    pymod (rad2deg (atan2 y x)) 360 + pymod (rad2deg (atan2 (-y) x)) 360 = 360 := by
  have hpi := Real.pi_pos
  have hu1 : y / x < 0 := div_neg_of_pos_of_neg hy hx
  have hu2 : Real.arctan (y / x) < 0 := by
    have h := Real.arctan_strictMono hu1
    rwa [Real.arctan_zero] at h
  have hu3 := Real.neg_pi_div_two_lt_arctan (y / x)
  rw [atan2_of_neg_x hx (le_of_lt hy), atan2_of_neg_x_neg_y hx (neg_lt_zero.mpr hy)]
  have hnd : (-y) / x = -(y / x) := by rw [neg_div]
  rw [hnd, Real.arctan_neg]
  set u := Real.arctan (y / x) with hu
  have hA1 : 90 < rad2deg (u + π) := by
    unfold rad2deg
    rw [lt_div_iff₀ Real.pi_pos]
    linarith
  have hA2 : rad2deg (u + π) < 180 := by
    unfold rad2deg
    rw [div_lt_iff₀ Real.pi_pos]
    linarith
  have hB1 : -180 < rad2deg (-u - π) := by
    unfold rad2deg
    rw [lt_div_iff₀ Real.pi_pos]
    linarith
  have hB2 : rad2deg (-u - π) < 0 := by
    unfold rad2deg
    rw [div_lt_iff₀ Real.pi_pos]
    linarith
  rw [pymod_eq_self (by linarith) (by linarith), pymod_eq_add (by linarith) hB2]
  unfold rad2deg
  ring

theorem atan2_zero_of_neg {x : ℝ} (hx : x < 0) : atan2 0 x = π := by
  rw [atan2_of_neg_x hx (le_refl 0), zero_div, Real.arctan_zero, zero_add]

theorem rad2deg_pi : rad2deg π = 180 := by
  unfold rad2deg
  rw [mul_comm, mul_div_assoc, div_self Real.pi_ne_zero, mul_one]

/-- C7: for every pair of target longitudes placed symmetrically about the
observer longitude, `calculate_geo_angles` either rejects both, or returns
equal elevations together with azimuths that are reflections of each other:
the two azimuths sum to exactly 360°. -/
theorem c7_mirror_symmetry (d : ℝ) :
    (calculate_geo_angles (DHAKA_LON + d) = none ∧
        calculate_geo_angles (DHAKA_LON - d) = none) ∨
      (∃ e a b, calculate_geo_angles (DHAKA_LON + d) = some (e, a) ∧
        calculate_geo_angles (DHAKA_LON - d) = some (e, b) ∧ a + b = 360) := by
  have e1 : DHAKA_LON + d - DHAKA_LON = d := by ring
  have e2 : DHAKA_LON - d - DHAKA_LON = -d := by ring
  have hneg : deg2rad (-d) = -deg2rad d := by
    unfold deg2rad
    ring
  have hcg : cosGammaGen DHAKA_LAT DHAKA_LON (DHAKA_LON - d) =
      cosGammaGen DHAKA_LAT DHAKA_LON (DHAKA_LON + d) := by
    unfold cosGammaGen
    rw [e1, e2, hneg, Real.cos_neg]
  have hel : geoElevationGen DHAKA_LAT DHAKA_LON (DHAKA_LON - d) =
      geoElevationGen DHAKA_LAT DHAKA_LON (DHAKA_LON + d) := by
    unfold geoElevationGen
    rw [hcg]
  unfold calculate_geo_angles calcGeoAnglesGen
  rw [hcg, hel]
  split_ifs with h1 h2
  · exact Or.inl ⟨rfl, rfl⟩
  · exact Or.inl ⟨rfl, rfl⟩
  · refine Or.inr ⟨geoElevationGen DHAKA_LAT DHAKA_LON (DHAKA_LON + d),
      geoAzimuthGen DHAKA_LAT DHAKA_LON (DHAKA_LON + d),
      geoAzimuthGen DHAKA_LAT DHAKA_LON (DHAKA_LON - d), rfl, rfl, ?_⟩
    unfold geoAzimuthGen
    rw [e1, e2, hneg, Real.cos_neg, Real.sin_neg]
    have hsp := sin_phi_bounds
    have hcp := cos_phi_bounds
    have hrr : (0 : ℝ) < R_EARTH / R_GEO := by
      rw [rr_eq]
      norm_num
    have hvis := not_le.mp h1
    have hcos : 0 < Real.cos (deg2rad d) := by
      unfold cosGammaGen at hvis
      rw [e1] at hvis
      by_contra hcon
      push_neg at hcon
      have hprod : Real.cos (deg2rad DHAKA_LAT) * Real.cos (deg2rad d) ≤ 0 :=
        mul_nonpos_of_nonneg_of_nonpos (by linarith [hcp.1]) hcon
      linarith
    have hx : -Real.cos (deg2rad d) * Real.sin (deg2rad DHAKA_LAT) < 0 := by
      have hprod : 0 < Real.cos (deg2rad d) * Real.sin (deg2rad DHAKA_LAT) :=
        mul_pos hcos (by linarith [hsp.1])
      nlinarith
    rcases lt_trichotomy (Real.sin (deg2rad d)) 0 with hy | hy | hy
    · have h := azimuth_reflection_pos hx (neg_pos.mpr hy)
      rw [neg_neg] at h
      linarith
    · rw [hy, neg_zero, atan2_zero_of_neg hx, rad2deg_pi,
        pymod_eq_self (by norm_num) (by norm_num)]
      norm_num
    · exact azimuth_reflection_pos hx hy

/-! ### Claim C10 — survey vs predictor GEO elevation implementations

`calculate_geo_angles` converts degrees with the exact `math.radians`
(i.e. with π), while the inline computation in `calculate_geo_visibility`
uses the literal `3.14159`.  Since `3.14159 < π`, the predictor evaluates the
cosines at strictly smaller angles, so its `cos_gamma` is strictly larger and
its elevation strictly larger wherever both compute one. -/

theorem cos_predlat_pos : 0 < Real.cos (23.8103 * PI_APPROX / 180) := by
  apply Real.cos_pos_of_mem_Ioo
  constructor
  · have := Real.pi_pos
    unfold PI_APPROX
    linarith
  · have := Real.pi_gt_d6
    unfold PI_APPROX
    linarith

theorem cos_predlat_lt_one : Real.cos (23.8103 * PI_APPROX / 180) < 1 := by
  have h : Real.cos (23.8103 * PI_APPROX / 180) < Real.cos 0 := by
    apply Real.cos_lt_cos_of_nonneg_of_le_pi (le_refl 0)
    · have := Real.pi_gt_d6
      unfold PI_APPROX
      linarith
    · unfold PI_APPROX
      norm_num
  rwa [Real.cos_zero] at h

theorem predCosGamma_gt (lon : ℝ) (h40 : 40 ≤ lon) (h160 : lon ≤ 160)
    (hvis : R_EARTH / R_GEO < cosGammaGen DHAKA_LAT DHAKA_LON lon) :
    cosGammaGen DHAKA_LAT DHAKA_LON lon < predCosGamma lon := by
  have hpi6 := Real.pi_gt_d6
  have hpi := Real.pi_pos
  have hrr : (0 : ℝ) < R_EARTH / R_GEO := by
    rw [rr_eq]
    norm_num
  have hcp := cos_phi_bounds
  have hcosD : 0 < Real.cos (deg2rad (lon - DHAKA_LON)) := by
    unfold cosGammaGen at hvis
    by_contra hcon
    push_neg at hcon
    have hprod : Real.cos (deg2rad DHAKA_LAT) * Real.cos (deg2rad (lon - DHAKA_LON)) ≤ 0 :=
      mul_nonpos_of_nonneg_of_nonpos (by linarith [hcp.1]) hcon
    linarith
  have hlat1 : (0 : ℝ) < 23.8103 * PI_APPROX / 180 := by
    unfold PI_APPROX
    norm_num
  have hlat2 : 23.8103 * PI_APPROX / 180 < deg2rad DHAKA_LAT := by
    unfold PI_APPROX deg2rad DHAKA_LAT
    linarith
  have hlat3 : deg2rad DHAKA_LAT ≤ π := by
    unfold deg2rad DHAKA_LAT
    linarith
  have hcosphi : Real.cos (deg2rad DHAKA_LAT) < Real.cos (23.8103 * PI_APPROX / 180) :=
    Real.cos_lt_cos_of_nonneg_of_le_pi (le_of_lt hlat1) hlat3 hlat2
  have habs0 : (0 : ℝ) ≤ |lon - 90.4125| := abs_nonneg _
  have habs : |deg2rad (lon - DHAKA_LON)| = |lon - 90.4125| * π / 180 := by
    unfold deg2rad DHAKA_LON
    rw [abs_div, abs_mul, abs_of_pos hpi]
    norm_num
  have habs2 : |lon - 90.4125| ≤ 69.5875 := by
    rw [abs_le]
    constructor <;> linarith
  have hD1 : (0 : ℝ) ≤ |lon - 90.4125| * PI_APPROX / 180 := by
    unfold PI_APPROX
    positivity
  have hD2 : |lon - 90.4125| * PI_APPROX / 180 ≤ |deg2rad (lon - DHAKA_LON)| := by
    rw [habs]
    unfold PI_APPROX
    have hm := mul_le_mul_of_nonneg_left (show (3.14159 : ℝ) ≤ π by linarith) habs0
    linarith
  have hD3 : |deg2rad (lon - DHAKA_LON)| ≤ π := by
    rw [habs]
    have hm := mul_le_mul_of_nonneg_right habs2 (le_of_lt hpi)
    linarith
  have hcosD2 : Real.cos |deg2rad (lon - DHAKA_LON)| ≤
      Real.cos (|lon - 90.4125| * PI_APPROX / 180) :=
    Real.cos_le_cos_of_nonneg_of_le_pi hD1 hD3 hD2
  have hcabs : Real.cos |deg2rad (lon - DHAKA_LON)| = Real.cos (deg2rad (lon - DHAKA_LON)) :=
    Real.cos_abs _
  unfold cosGammaGen predCosGamma
  calc Real.cos (deg2rad DHAKA_LAT) * Real.cos (deg2rad (lon - DHAKA_LON))
      < Real.cos (23.8103 * PI_APPROX / 180) * Real.cos (deg2rad (lon - DHAKA_LON)) :=
        mul_lt_mul_of_pos_right hcosphi hcosD
    _ ≤ Real.cos (23.8103 * PI_APPROX / 180) *
          Real.cos (|lon - 90.4125| * PI_APPROX / 180) := by
        apply mul_le_mul_of_nonneg_left _ (le_of_lt cos_predlat_pos)
        rw [← hcabs]
        exact hcosD2

theorem survey_elev_lt_pred (lon : ℝ) (h40 : 40 ≤ lon) (h160 : lon ≤ 160)
    (hvis : R_EARTH / R_GEO < cosGammaGen DHAKA_LAT DHAKA_LON lon) :
    geoElevationGen DHAKA_LAT DHAKA_LON lon < predElevation lon := by
  have hc12 := predCosGamma_gt lon h40 h160 hvis
  have hrr : (0 : ℝ) < R_EARTH / R_GEO := by
    rw [rr_eq]
    norm_num
  have hc1pos : 0 < cosGammaGen DHAKA_LAT DHAKA_LON lon := lt_trans hrr hvis
  have hc2pos : 0 < predCosGamma lon := lt_trans hc1pos hc12
  have hc2lt1 : predCosGamma lon < 1 := by
    have hm := mul_le_of_le_one_right (le_of_lt cos_predlat_pos)
      (Real.cos_le_one (|lon - 90.4125| * PI_APPROX / 180))
    have := cos_predlat_lt_one
    unfold predCosGamma
    linarith
  have hc1lt1 : cosGammaGen DHAKA_LAT DHAKA_LON lon < 1 := lt_trans hc12 hc2lt1
  have hd1pos : 0 < Real.sqrt (1 - cosGammaGen DHAKA_LAT DHAKA_LON lon ^ 2) :=
    Real.sqrt_pos.mpr (by nlinarith)
  have hd2pos : 0 < Real.sqrt (1 - predCosGamma lon ^ 2) :=
    Real.sqrt_pos.mpr (by nlinarith)
  have hdlt : Real.sqrt (1 - predCosGamma lon ^ 2) <
      Real.sqrt (1 - cosGammaGen DHAKA_LAT DHAKA_LON lon ^ 2) :=
    Real.sqrt_lt_sqrt (by nlinarith) (by nlinarith)
  have hnum : cosGammaGen DHAKA_LAT DHAKA_LON lon - R_EARTH / R_GEO <
      predCosGamma lon - 6371 / 42164 := by
    have := rr_eq
    linarith
  have hnum2pos : (0 : ℝ) < predCosGamma lon - 6371 / 42164 := by
    have := rr_eq
    linarith
  have hr1 : (cosGammaGen DHAKA_LAT DHAKA_LON lon - R_EARTH / R_GEO) /
        Real.sqrt (1 - cosGammaGen DHAKA_LAT DHAKA_LON lon ^ 2) <
      (predCosGamma lon - 6371 / 42164) /
        Real.sqrt (1 - cosGammaGen DHAKA_LAT DHAKA_LON lon ^ 2) :=
    (div_lt_div_iff_of_pos_right hd1pos).mpr hnum
  have hr2 : (predCosGamma lon - 6371 / 42164) /
        Real.sqrt (1 - cosGammaGen DHAKA_LAT DHAKA_LON lon ^ 2) <
      (predCosGamma lon - 6371 / 42164) / Real.sqrt (1 - predCosGamma lon ^ 2) :=
    (div_lt_div_iff_of_pos_left hnum2pos hd1pos hd2pos).mpr hdlt
  unfold geoElevationGen predElevation
  rw [atan2_of_pos_x hd1pos]
  have harc := Real.arctan_strictMono (lt_trans hr1 hr2)
  unfold rad2deg
  rw [div_lt_div_iff_of_pos_right Real.pi_pos]
  linarith

theorem rr_lt_cg119 : R_EARTH / R_GEO < cosGammaGen DHAKA_LAT DHAKA_LON 119.1 := by
  rw [rr_eq]
  have h := cg119_bounds.1
  have hq : (6371 : ℝ) / 42164 < 0.8023392 := by norm_num
  linarith

theorem cgv_entry_119 :
    calculate_geo_visibility_entry 40 160 119.1 =
      some (predElevation 119.1, predAzimuth 119.1) := by
  unfold calculate_geo_visibility_entry
  have hb : (0.1513 : ℝ) < predCosGamma 119.1 := by
    have h := predCosGamma_gt 119.1 (by norm_num) (by norm_num) rr_lt_cg119
    have hc := cg119_bounds.1
    have hq : (0.1513 : ℝ) < 0.8023392 := by norm_num
    linarith
  rw [if_pos (by norm_num : (40 : ℝ) ≤ 119.1 ∧ (119.1 : ℝ) ≤ 160), if_pos hb]

/-- C10 counterexample: at target longitude 119.1°E both implementations
produce a result, yet the two elevations are **not** equal — the survey's
(using exact π) is strictly below the predictor's (using 3.14159). -/
theorem c10_counterexample :
    calculate_geo_angles 119.1 = some (geoElevation 119.1, geoAzimuth 119.1) ∧
      calculate_geo_visibility_entry 40 160 119.1 =
        some (predElevation 119.1, predAzimuth 119.1) ∧
      geoElevation 119.1 ≠ predElevation 119.1 :=
  ⟨calc_geo_angles_119, cgv_entry_119,
    ne_of_lt (survey_elev_lt_pred 119.1 (by norm_num) (by norm_num) rr_lt_cg119)⟩

/-- C10 (amended): for every target longitude at which both GEO elevation
implementations produce a result, the elevation computed by
`calculate_geo_angles` (exact `math.radians`) is strictly **smaller** than the
elevation computed inline in `calculate_geo_visibility` (3.14159 conversion):
the crude π literal shrinks both angles, enlarging `cos_gamma` and hence the
elevation; the two implementations never agree exactly. -/
theorem c10_elevation_refinement (lon el az el2 az2 : ℝ)
    (h1 : calculate_geo_angles lon = some (el, az))
    (h2 : calculate_geo_visibility_entry 40 160 lon = some (el2, az2)) :
    el < el2 := by
  unfold calculate_geo_angles calcGeoAnglesGen at h1
  unfold calculate_geo_visibility_entry at h2
  by_cases hc1 : cosGammaGen DHAKA_LAT DHAKA_LON lon ≤ R_EARTH / R_GEO
  · rw [if_pos hc1] at h1
    exact absurd h1 (by simp)
  rw [if_neg hc1] at h1
  by_cases hc2 : geoElevationGen DHAKA_LAT DHAKA_LON lon < MIN_ELEVATION
  · rw [if_pos hc2] at h1
    exact absurd h1 (by simp)
  rw [if_neg hc2] at h1
  by_cases ha : (40 : ℝ) ≤ lon ∧ lon ≤ 160
  case neg =>
    rw [if_neg ha] at h2
    exact absurd h2 (by simp)
  rw [if_pos ha] at h2
  by_cases hb : (0.1513 : ℝ) < predCosGamma lon
  case neg =>
    rw [if_neg hb] at h2
    exact absurd h2 (by simp)
  rw [if_pos hb] at h2
  simp only [Option.some.injEq, Prod.mk.injEq] at h1 h2
  rw [← h1.1, ← h2.1]
  exact survey_elev_lt_pred lon ha.1 ha.2 (not_le.mp hc1)

/-- C10 witness: the amended statement applied at longitude 119.1°E. -/
theorem c10_witness :
    calculate_geo_angles 119.1 = some (geoElevation 119.1, geoAzimuth 119.1) ∧
      calculate_geo_visibility_entry 40 160 119.1 =
        some (predElevation 119.1, predAzimuth 119.1) ∧
      geoElevation 119.1 < predElevation 119.1 :=
  ⟨calc_geo_angles_119, cgv_entry_119,
    c10_elevation_refinement 119.1 (geoElevation 119.1) (geoAzimuth 119.1)
      (predElevation 119.1) (predAzimuth 119.1) calc_geo_angles_119 cgv_entry_119⟩

end SatelliteSecurity
